import Mathlib

/-!
Shallow embedding of `src/stream5.py`, a role-based sales analytics
dashboard (Streamlit + pandas).  Dataframes are embedded as `List Row`;
pandas column operations become list operations; money and response times
are `Rat`; nullable parsed dates/timestamps are `Option`.  Pandas
`groupby(sort=True)` is embedded as grouping over the sorted deduplicated
key list; `Series.nlargest` as a stable descending sort by value followed
by `take`.  Fallible operations (`st.stop`, raised exceptions) are
embedded with `Except`.
-/

/-- One row of `sales_data.csv` after `load_data` parsing (stream5.py line 21).
`sale_date` and `ts_hour` are `Option` because `pd.to_datetime(errors='coerce')`
produces nulls for unparseable values; `ts_hour` is the hour-of-day of the
parsed `timestamp` column (`.dt.hour`, line 319/690), `none` when the
timestamp is null/unparseable.  `sale_date` is a day number. -/
structure Row where
  sale_date : Option Int
  country : String
  salesperson : String
  total_price : Rat
  category : String
  product_name : String
  sales_channel : String
  customer_age : Nat
  customer_gender : String
  event_type : String
  status_code : Nat
  customer_id : String
  customer_type : String
  occupation : String
  session_id : String
  response_time_ms : Rat
  url_requested : String
  ts_hour : Option Nat
deriving DecidableEq

/-- Insert `a` into `l` before the first element `b` with `le a b`. -/
def insertBy {α : Type} (le : α → α → Bool) (a : α) : List α → List α
  | [] => [a]
  | b :: t => if le a b then a :: b :: t else b :: insertBy le a t

/-- Insertion sort by the boolean relation `le`; stable (an earlier element
precedes a later equal one), matching pandas' stable sorts. -/
def sortBy {α : Type} (le : α → α → Bool) : List α → List α
  | [] => []
  | a :: t => insertBy le a (sortBy le t)

/-- Code-point comparison on strings, the order pandas uses for Python `str`
group keys when `groupby(sort=True)` sorts them. -/
def strLe (a b : String) : Bool := decide (a < b) || a == b

/-- Boolean substring test on character lists. -/
def hasSub (hay needle : List Char) : Bool :=
  match hay with
  | [] => needle.isEmpty
  | h :: t => needle.isPrefixOf (h :: t) || hasSub t needle

/-- Case-insensitive substring containment:
`Series.str.contains(keyword, case=False)` (stream5.py lines 117-118). -/
def containsCI (hay needle : String) : Bool :=
  hasSub (hay.data.map Char.toLower) (needle.data.map Char.toLower)

/-- The inclusive date-range test applied against `sale_date`
(stream5.py lines 122-125).  A null date (`NaT`) compares false. -/
def dateInRange (s e : Int) (r : Row) : Bool :=
  match r.sale_date with
  | some d => decide (s ≤ d) && decide (d ≤ e)
  | none => false

/-- The sidebar filter state fed to `filter_data` (stream5.py lines 62-97).
`country`/`category`/`sales_channel` use the sentinel `"All"` for "no
filter"; `keyword` uses `""`; `salesperson` is `none` for non-Salesperson
roles, mirroring the Python `None`. -/
structure FilterCriteria where
  country : String
  category : String
  sales_channel : String
  keyword : String
  salesperson : Option String
  start_date : Int
  end_date : Int

/-- `filter_data` (stream5.py lines 106-126): the Working Subset.  Each
optional criterion is applied in source order only when set; the keyword is
a case-insensitive substring match against product name OR requested URL;
the date filter is inclusive on both bounds. -/
def filter_data (df : List Row) (c : FilterCriteria) : List Row :=
  let f1 := if c.country ≠ "All" then df.filter (fun r => r.country == c.country) else df
  let f2 := if c.category ≠ "All" then f1.filter (fun r => r.category == c.category) else f1
  let f3 := if c.sales_channel ≠ "All" then
      f2.filter (fun r => r.sales_channel == c.sales_channel) else f2
  let f4 := if c.keyword ≠ "" then
      f3.filter (fun (r : Row) =>
        containsCI r.product_name c.keyword || containsCI r.url_requested c.keyword)
    else f3
  let f5 := match c.salesperson with
    | some sp =>
        if sp != "" && sp != "All" then f4.filter (fun (r : Row) => r.salesperson == sp) else f4
    | none => f4
  f5.filter (dateInRange c.start_date c.end_date)

/-- The canonical "successful sale" predicate
`(total_price > 0) & (event_type == 'Purchase') & (status_code == 200)`
(stream5.py line 129). -/
def isPurchase (r : Row) : Bool :=
  decide (r.total_price > 0) && r.event_type == "Purchase" && r.status_code == 200

/-- `purchases_df` (stream5.py line 129): the Purchase Subset derived from a
working subset. -/
def purchasesOf (wd : List Row) : List Row := wd.filter isPurchase

/-- The Salesperson-mode restriction of the working subset to the selected
salesperson plus the (repeated) inclusive date filter
(stream5.py lines 455-461 and 214-216). -/
def person_subset (df : List Row) (sel : Option String) (s e : Int) : List Row :=
  let person := match sel with
    | some sp =>
        if sp != "" && sp != "All" then df.filter (fun (r : Row) => r.salesperson == sp) else df
    | none => df
  person.filter (dateInRange s e)

/-- The Salesperson-mode purchase subset, transcribed literally from
stream5.py lines 463-465 (and 217-219 in the PDF path), where the
predicate is written out inline rather than reusing line 129. -/
def salesperson_purchases (df : List Row) (sel : Option String) (s e : Int) : List Row :=
  (person_subset df sel s e).filter (fun r =>
    decide (r.total_price > 0) && r.event_type == "Purchase" && r.status_code == 200)

/-- `groupby(key)['total_price'].sum().reset_index()` with pandas' default
`sort=True`: rows keyed by `key`, one output pair per distinct key in
ascending key order, carrying the group's summed `total_price`. -/
def groupSum (key : Row → String) (rows : List Row) : List (String × Rat) :=
  (sortBy strLe (rows.map key).dedup).map
    (fun k => (k, ((rows.filter (fun r => key r == k)).map (fun r => r.total_price)).sum))

/-- `Series.nlargest n` on a `groupSum` result: top `n` pairs by value
descending, stable (ties keep the earlier, i.e. key-ascending, entry),
matching pandas `nlargest(keep='first')`. -/
def nlargest (n : Nat) (xs : List (String × Rat)) : List (String × Rat) :=
  (sortBy (fun a b => decide (b.2 ≤ a.2)) xs).take n

/-- The three-tier gauge color policy, transcribed from stream5.py
lines 476-481 (live) / 228-233 (PDF): green when revenue meets the target,
magenta when it reaches 90% of the target, red otherwise. -/
def gauge_color (revenue_achieved sales_target : Rat) : String :=
  if revenue_achieved ≥ sales_target then "green"
  else if revenue_achieved ≥ sales_target * (9 / 10) then "magenta"
  else "red"

/-- `conversion_rate = (number_of_sales / total_events * 100) if
total_events > 0 else 0` (stream5.py lines 472-473 / 225-226), where
`number_of_sales = len(purchases_df)` and `total_events = len(person_df)`. -/
def conversion_rate (person : List Row) : Rat :=
  let number_of_sales := (purchasesOf person).length
  let total_events := person.length
  if total_events > 0 then ((number_of_sales : Rat) / (total_events : Rat)) * 100 else 0

/-- Arithmetic mean of a list of rationals (`Series.mean`); the lists this
is applied to are nonempty on every reachable path (an empty list would be
pandas `NaN`, and here yields `0/0 = 0`). -/
def mean (xs : List Rat) : Rat := xs.sum / (xs.length : Rat)

/-- The sorted distinct session ids, i.e. the index of
`groupby('session_id')` with pandas' default `sort=True`. -/
def session_ids (rows : List Row) : List String :=
  sortBy strLe (rows.map (fun r => r.session_id)).dedup

/-- Mean `response_time_ms` of one session's rows:
`groupby('session_id')['response_time_ms'].mean()` at key `s`. -/
def session_mean (rows : List Row) (s : String) : Rat :=
  mean ((rows.filter (fun r => r.session_id == s)).map (fun r => r.response_time_ms))

/-- `avg_session_length = filtered_df.groupby('session_id')
['response_time_ms'].mean().mean() if not filtered_df.empty else 0`
(stream5.py line 317 / 688): the outer `.mean()` is the unweighted mean of
the per-session means. -/
def avg_session_length (rows : List Row) : Rat :=
  if rows.isEmpty then 0 else mean ((session_ids rows).map (session_mean rows))

/-- Sorted modal values of a list of hours: `Series.mode()` (which drops
nulls before counting and returns the modal values in ascending order). -/
def hour_mode (hs : List Nat) : List Nat :=
  let vals := sortBy (fun a b => decide (a ≤ b)) hs.dedup
  let m := (vals.map (fun v => (hs.filter (fun x => x == v)).length)).foldr max 0
  vals.filter (fun v => (hs.filter (fun x => x == v)).length == m)

/-- `most_active_hour = filtered_df['hour'].mode().iloc[0] if not
filtered_df['hour'].empty else "N/A"` (stream5.py lines 689-691 / 318-320).
The derived hour column has one entry per row (`none` where the timestamp
was null); `mode()` drops the nulls, so on a nonempty frame whose hours are
all null it returns an empty series and `.iloc[0]` raises `IndexError`,
embedded here as `Except.error`.  `.ok none` is the `"N/A"` placeholder. -/
def most_active_hour (rows : List Row) : Except String (Option Nat) :=
  let hour_col := rows.map (fun r => r.ts_hour)
  if hour_col.isEmpty then Except.ok none
  else
    match hour_mode (hour_col.filterMap id) with
    | [] => Except.error "IndexError: single positional indexer is out-of-bounds"
    | h :: _ => Except.ok (some h)

/-- The Sales Manager KPI block. -/
structure ManagerKPIs where
  total_sales : Rat
  top_product : String
  top_product_sales : Rat
  top_salesperson : String
  top_salesperson_sales : Rat
  demo_requests : Nat

/-- Manager KPIs as the PDF export computes them (stream5.py lines 155-162). -/
def manager_kpis_pdf (filtered purchases : List Row) : ManagerKPIs :=
  let total_sales := (purchases.map (fun r => r.total_price)).sum
  let top_products := nlargest 5 (groupSum (fun r => r.product_name) purchases)
  let sales_by_person := groupSum (fun r => r.salesperson) purchases
  let top_product := match top_products with | [] => "N/A" | x :: _ => x.1
  let top_product_sales := match top_products with | [] => (0 : Rat) | x :: _ => x.2
  let top_salesperson := match sales_by_person with | [] => "N/A" | x :: _ => x.1
  let top_salesperson_sales := match sales_by_person with | [] => (0 : Rat) | x :: _ => x.2
  let demo_requests := (filtered.filter (fun r => r.event_type == "Demo Request")).length
  ⟨total_sales, top_product, top_product_sales, top_salesperson, top_salesperson_sales,
    demo_requests⟩

/-- Manager KPIs as the live dashboard computes them (stream5.py
lines 589-599): same aggregations, but the four top-product/top-salesperson
values are additionally wrapped in an `if not purchases_df.empty` guard
(lines 592-598) that short-circuits to the placeholders. -/
def manager_kpis_live (filtered purchases : List Row) : ManagerKPIs :=
  let total_sales := (purchases.map (fun r => r.total_price)).sum
  let top_products := nlargest 5 (groupSum (fun r => r.product_name) purchases)
  let sales_by_person := groupSum (fun r => r.salesperson) purchases
  let four : String × Rat × String × Rat :=
    if purchases.isEmpty then ("N/A", 0, "N/A", 0)
    else
      (match top_products with | [] => "N/A" | x :: _ => x.1,
       match top_products with | [] => (0 : Rat) | x :: _ => x.2,
       match sales_by_person with | [] => "N/A" | x :: _ => x.1,
       match sales_by_person with | [] => (0 : Rat) | x :: _ => x.2)
  let demo_requests := (filtered.filter (fun r => r.event_type == "Demo Request")).length
  ⟨total_sales, four.1, four.2.1, four.2.2.1, four.2.2.2, demo_requests⟩

/-- The Salesperson KPI block. -/
structure SalespersonKPIs where
  number_of_sales : Nat
  revenue_achieved : Rat
  top_product : String
  top_product_sales : Rat
  conv_rate : Rat
  color : String

/-- Salesperson KPIs as the PDF export computes them (stream5.py
lines 214-233): restrict to the selected salesperson, re-apply the date
filter, re-derive the purchase subset with the inline predicate, then
compute the KPIs and the gauge color. -/
def salesperson_kpis_pdf (df : List Row) (sel : Option String) (s e : Int)
    (sales_target : Rat) : SalespersonKPIs :=
  let purchases := salesperson_purchases df sel s e
  let number_of_sales := purchases.length
  let revenue_achieved := (purchases.map (fun r => r.total_price)).sum
  let top_products := nlargest 1 (groupSum (fun r => r.product_name) purchases)
  let top_product := match top_products with | [] => "N/A" | x :: _ => x.1
  let top_product_sales := match top_products with | [] => (0 : Rat) | x :: _ => x.2
  let conv := conversion_rate (person_subset df sel s e)
  ⟨number_of_sales, revenue_achieved, top_product, top_product_sales, conv,
    gauge_color revenue_achieved sales_target⟩

/-- Salesperson KPIs as the live dashboard computes them
(`salesperson_dashboard`, stream5.py lines 451-481): the same restriction,
date re-filter, inline purchase predicate, KPI formulas and gauge-color
branch as the PDF path. -/
def salesperson_kpis_live (df : List Row) (sel : Option String) (s e : Int)
    (sales_target : Rat) : SalespersonKPIs :=
  let purchases := salesperson_purchases df sel s e
  let number_of_sales := purchases.length
  let revenue_achieved := (purchases.map (fun r => r.total_price)).sum
  let top_products := nlargest 1 (groupSum (fun r => r.product_name) purchases)
  let top_product := match top_products with | [] => "N/A" | x :: _ => x.1
  let top_product_sales := match top_products with | [] => (0 : Rat) | x :: _ => x.2
  let conv := conversion_rate (person_subset df sel s e)
  ⟨number_of_sales, revenue_achieved, top_product, top_product_sales, conv,
    gauge_color revenue_achieved sales_target⟩

/-- The Sales Marketer KPI block. -/
structure MarketerKPIs where
  total_visits : Nat
  avg_session : Rat
  active_hour : Except String (Option Nat)
  total_log_requests : Nat

/-- Marketer KPIs as the PDF export computes them (stream5.py
lines 316-320): distinct-session count, mean-of-means session length,
modal hour, and the working-subset row count. -/
def marketer_kpis_pdf (filtered : List Row) : MarketerKPIs :=
  ⟨(filtered.map (fun r => r.session_id)).dedup.length,
   avg_session_length filtered,
   most_active_hour filtered,
   filtered.length⟩

/-- Marketer KPIs as the live dashboard computes them (stream5.py
lines 687-691): the same four expressions. -/
def marketer_kpis_live (filtered : List Row) : MarketerKPIs :=
  ⟨(filtered.map (fun r => r.session_id)).dedup.length,
   avg_session_length filtered,
   most_active_hour filtered,
   filtered.length⟩

/-- The fatal load errors of `load_data` (stream5.py lines 27-35).  In the
source these are `st.error(...)` messages followed by `st.stop()`; the spec
names them `SchemaError` and `ValidationError`.  `SchemaError` carries the
list of missing columns that the source joins with `", "` into the message
`"Missing required columns: ..."`. -/
inductive LoadError where
  | SchemaError (missing : List String)
  | ValidationError (msg : String)
deriving DecidableEq

/-- `required_columns` (stream5.py lines 22-25): the 17 required columns,
in source order. -/
def required_columns : List String :=
  ["sale_date", "country", "salesperson", "total_price", "category",
   "product_name", "sales_channel", "customer_age", "customer_gender",
   "event_type", "status_code", "customer_id", "customer_type", "occupation",
   "session_id", "response_time_ms", "url_requested"]

/-- `missing_columns = [col for col in required_columns if col not in
df.columns]` (stream5.py line 26). -/
def missing_columns (cols : List String) : List String :=
  required_columns.filter (fun c => !(cols.contains c))

/-- The validation stage of `load_data` (stream5.py lines 26-38), applied to
the column list and rows of the parsed file: the schema check runs first
and stops processing (all missing columns reported in one error), then the
negative-price and age-range checks.  `customer_age` is `Nat` here, so the
source's `customer_age < 0` branch of line 33 cannot fire. -/
def load_data (cols : List String) (rows : List Row) : Except LoadError (List Row) :=
  if missing_columns cols ≠ [] then Except.error (LoadError.SchemaError (missing_columns cols))
  else if rows.any (fun r => r.total_price < 0) then
    Except.error (LoadError.ValidationError "Negative values found in total_price.")
  else if rows.any (fun r => 120 < r.customer_age) then
    Except.error (LoadError.ValidationError "Invalid customer_age values detected.")
  else Except.ok rows

/-- `age_labels` (stream5.py line 724 / 344). -/
def age_labels : List String := ["0-20", "21-30", "31-40", "41-50", "51+"]

/-- `pd.cut(customer_age, bins=[0, 20, 30, 40, 50, 100], labels=age_labels,
include_lowest=True)` (stream5.py lines 723-726 / 343-346).  With pandas'
default `right=True` the intervals are `[0,20]`, `(20,30]`, `(30,40]`,
`(40,50]`, `(50,100]`; an age above 100 is outside every interval and
becomes null (`none`). -/
def age_group (age : Nat) : Option String :=
  if age ≤ 20 then some "0-20"
  else if age ≤ 30 then some "21-30"
  else if age ≤ 40 then some "31-40"
  else if age ≤ 50 then some "41-50"
  else if age ≤ 100 then some "51+"
  else none

/-- `purchases_df.groupby(['age_group', 'product_name'])['total_price']
.sum().reset_index()` (stream5.py line 727 / 347): rows whose `age_group`
is null carry no group key and are dropped by `groupby`, exactly as pandas
drops NaN keys. -/
def sales_by_age_product (p : List Row) : List ((String × String) × Rat) :=
  let keyed := p.filterMap (fun r =>
    (age_group r.customer_age).map (fun g => ((g, r.product_name), r.total_price)))
  let pairLe : (String × String) → (String × String) → Bool := fun a b =>
    decide (a.1 < b.1) || (a.1 == b.1 && strLe a.2 b.2)
  (sortBy pairLe (keyed.map (fun x => x.1)).dedup).map
    (fun k => (k, ((keyed.filter (fun x => x.1 == k)).map (fun x => x.2)).sum))

/-- The chart embed-and-cleanup loop of `generate_pdf` (stream5.py
lines 398-415).  Each chart file was created with
`NamedTemporaryFile(delete=False)`; the loop draws the title and image for
one chart and only then calls `os.unlink(chart_path)` — there is no
`try/finally`, so an exception while rendering or embedding chart `c`
(modelled as `ok c = false`) propagates, skipping the unlink of `c` and of
every later chart.  The result is the list of files actually deleted and
whether the loop ran to completion. -/
def embed_charts (ok : String → Bool) : List String → List String × Bool
  | [] => ([], true)
  | c :: t =>
      if ok c then
        let rest := embed_charts ok t
        (c :: rest.1, rest.2)
      else ([], false)

/-- Restatement of the spec's words for the Marketer session-length KPI —
"the unweighted mean over distinct sessions of each session's mean response
time" — written directly over the distinct session ids in first-occurrence
order, for comparison with `avg_session_length` (which goes through the
sorted `groupby` index). -/
def meanOfSessionMeans (rows : List Row) : Rat :=
  mean ((rows.map (fun r => r.session_id)).dedup.map (session_mean rows))

/-- The single weighted mean over all rows of `response_time_ms`, the
statistically standard alternative that the spec says the code does NOT
compute. -/
def flat_mean (rows : List Row) : Rat :=
  mean (rows.map (fun r => r.response_time_ms))

/-- A concrete row builder for test inputs: the varying fields are
salesperson, total price, event type, status code, session id, response
time, customer age and timestamp hour; the rest are fixed plausible
values. -/
def mkRow (sp : String) (price : Rat) (ev : String) (sc : Nat) (sid : String)
    (rt : Rat) (age : Nat) (h : Option Nat) : Row :=
  ⟨some 0, "France", sp, price, "Gadgets", "Widget", "Online", age, "F", ev, sc,
   "C1", "New", "Engineer", sid, rt, "/products", h⟩

theorem insertBy_perm {α : Type} (le : α → α → Bool) (a : α) (l : List α) :
    (insertBy le a l).Perm (a :: l) := by
  induction l with
  | nil => exact List.Perm.refl _
  | cons b t ih =>
      by_cases h : le a b = true
      · simp [insertBy, h]
      · simp only [insertBy, h, if_false, Bool.false_eq_true]
        exact (List.Perm.cons b ih).trans (List.Perm.swap a b t)

theorem sortBy_perm {α : Type} (le : α → α → Bool) (l : List α) :
    (sortBy le l).Perm l := by
  induction l with
  | nil => exact List.Perm.refl _
  | cons a t ih => exact (insertBy_perm le a (sortBy le t)).trans (List.Perm.cons a ih)

theorem mean_perm {l₁ l₂ : List Rat} (h : l₁.Perm l₂) : mean l₁ = mean l₂ := by
  unfold mean
  rw [h.sum_eq, h.length_eq]

/-- C1: for every loaded table and every FilterCriteria, the Purchase Subset
is exactly the rows of the Working Subset satisfying
`total_price > 0 ∧ event_type = 'Purchase' ∧ status_code = 200`; hence it is
a sublist of the Working Subset; and the Salesperson path's inline purchase
derivation (lines 463-465 / 217-219) is the same predicate applied to its
restriction of the working subset, so all three role paths derive purchases
with the one predicate of line 129. -/
theorem c1_purchase_subset_invariant : ∀ (df : List Row) (c : FilterCriteria),
    (∀ r, r ∈ purchasesOf (filter_data df c) ↔
        r ∈ filter_data df c ∧
          (r.total_price > 0 ∧ r.event_type = "Purchase" ∧ r.status_code = 200)) ∧
    (purchasesOf (filter_data df c)).Sublist (filter_data df c) ∧
    (∀ (sel : Option String) (s e : Int),
        salesperson_purchases (filter_data df c) sel s e
          = purchasesOf (person_subset (filter_data df c) sel s e)) := by
  intro df c
  refine ⟨?_, List.filter_sublist _, fun sel s e => rfl⟩
  intro r
  simp [purchasesOf, List.mem_filter, isPurchase, decide_eq_true_iff, and_assoc]

/-- C2: for each role, the KPI numbers computed for the live dashboard view
and for the generated PDF agree exactly on every (Working Subset, Purchase
Subset) pair: the Manager paths differ only by the live view's redundant
empty-purchases guard, and the Salesperson and Marketer paths are the same
computation in both surfaces. -/
theorem c2_live_equals_pdf : ∀ (f p : List Row) (sel : Option String) (s e : Int) (t : Rat),
    manager_kpis_pdf f p = manager_kpis_live f p ∧
    salesperson_kpis_pdf f sel s e t = salesperson_kpis_live f sel s e t ∧
    marketer_kpis_pdf f = marketer_kpis_live f := by
  intro f p sel s e t
  refine ⟨?_, rfl, rfl⟩
  cases p with
  | nil => rfl
  | cons a t' => rfl

/-- Purchase rows exhibiting the Top Salesperson defect: Alice has one
successful purchase of 10, Bob one of 100. -/
def c3_rows : List Row :=
  [mkRow "Alice" 10 "Purchase" 200 "S1" 100 30 (some 12),
   mkRow "Bob" 100 "Purchase" 200 "S2" 100 30 (some 12)]

/-- C3 (code bug): on a Purchase Subset where Bob's summed revenue (100)
strictly exceeds Alice's (10), both the PDF and the live Manager KPI report
Alice — `sales_by_person` is a `groupby` result ordered by salesperson name
ascending, not by revenue descending, and `.iloc[0]` therefore picks the
alphabetically first salesperson, contradicting the "Top Salesperson" label
the code itself prints next to the value. -/
theorem c3_top_salesperson_code_bug :
    purchasesOf c3_rows = c3_rows ∧
    groupSum (fun r => r.salesperson) (purchasesOf c3_rows) = [("Alice", 10), ("Bob", 100)] ∧
    (manager_kpis_pdf c3_rows (purchasesOf c3_rows)).top_salesperson = "Alice" ∧
    (manager_kpis_pdf c3_rows (purchasesOf c3_rows)).top_salesperson_sales = 10 ∧
    (manager_kpis_live c3_rows (purchasesOf c3_rows)).top_salesperson = "Alice" := by
  refine ⟨by decide, ?_, ?_, ?_, ?_⟩ <;>
    norm_num +decide [manager_kpis_pdf, manager_kpis_live, groupSum, purchasesOf, isPurchase,
      c3_rows, mkRow, sortBy, insertBy, strLe, List.dedup_cons_of_not_mem, List.isEmpty]

/-- C4 counterexample: at `sales_target = 0` the claim's particular case
"revenue = 0.5×target gives red" fails — the code returns green, because
`0.5 × 0 = 0 ≥ 0` takes the first branch. -/
theorem c4_counterexample : gauge_color ((1 / 2) * 0) 0 = "green" := by
  norm_num [gauge_color]

/-- C4 (amended): the three-tier policy holds for every revenue and target
exactly as stated (green when `revenue ≥ target`, magenta when
`target*(9/10) ≤ revenue < target`, red when `revenue < target*(9/10)`),
and the particular cases `revenue = target → green`,
`revenue = 0.95×target → magenta`, `revenue = 0.5×target → red` hold for
every strictly positive target (at `target = 0` all three give green). -/
theorem c4_gauge_policy : ∀ r t : Rat,
    (r ≥ t → gauge_color r t = "green") ∧
    (r < t → r ≥ t * (9 / 10) → gauge_color r t = "magenta") ∧
    (r < t → r < t * (9 / 10) → gauge_color r t = "red") ∧
    gauge_color t t = "green" ∧
    (0 < t → gauge_color ((95 / 100) * t) t = "magenta") ∧
    (0 < t → gauge_color ((1 / 2) * t) t = "red") := by
  intro r t
  refine ⟨?_, ?_, ?_, ?_, ?_, ?_⟩
  · intro h; unfold gauge_color; rw [if_pos h]
  · intro h1 h2; unfold gauge_color; rw [if_neg (not_le.mpr h1), if_pos h2]
  · intro h0 h1; unfold gauge_color; rw [if_neg (not_le.mpr h0), if_neg (not_le.mpr h1)]
  · unfold gauge_color; rw [if_pos le_rfl]
  · intro ht
    unfold gauge_color
    rw [if_neg (not_le.mpr (by nlinarith)), if_pos (by nlinarith)]
  · intro ht
    unfold gauge_color
    rw [if_neg (not_le.mpr (by nlinarith)), if_neg (not_le.mpr (by nlinarith))]

/-- Witness for C4's amended theorem at `target = 10`. -/
theorem c4_witness :
    gauge_color 10 10 = "green" ∧ gauge_color ((95 / 100) * 10) 10 = "magenta" ∧
      gauge_color ((1 / 2) * 10) 10 = "red" :=
  ⟨(c4_gauge_policy 10 10).1 le_rfl,
   (c4_gauge_policy 0 10).2.2.2.2.1 (by norm_num),
   (c4_gauge_policy 0 10).2.2.2.2.2 (by norm_num)⟩

/-- C5: in Salesperson mode the conversion rate (stored as a percentage,
rendered with a trailing `%`) is `purchases / total events × 100` whenever
the working subset has events, and is the defined value 0 — not a
division-by-zero error — when it is empty. -/
theorem c5_conversion_rate_total : ∀ wd : List Row,
    (wd = [] → conversion_rate wd = 0) ∧
    (wd ≠ [] → conversion_rate wd
        = (((purchasesOf wd).length : Rat) / (wd.length : Rat)) * 100) := by
  intro wd
  constructor
  · rintro rfl
    simp [conversion_rate]
  · intro h
    have hl : 0 < wd.length := List.length_pos.mpr h
    simp [conversion_rate, hl]

/-- Two working-subset rows: one successful purchase, one demo request. -/
def c5_rows : List Row :=
  [mkRow "A" 5 "Purchase" 200 "S" 1 30 none, mkRow "A" 0 "Demo Request" 200 "S" 1 30 none]

/-- Witness for C5: empty working subset yields 0; one purchase among two
events yields 50 (percent). -/
theorem c5_witness : conversion_rate [] = 0 ∧ conversion_rate c5_rows = 50 := by
  constructor
  · exact (c5_conversion_rate_total []).1 rfl
  · have h := (c5_conversion_rate_total c5_rows).2 (by simp [c5_rows])
    rw [h]
    norm_num +decide [purchasesOf, isPurchase, c5_rows, mkRow]

/-- C6: loading a table that lacks any of the 17 required columns fails with
a `SchemaError` carrying every missing column (the filter collects all of
them before the message is built), and no later validation or processing
step runs; in particular a file missing only `customer_age` fails with a
`SchemaError` listing exactly `customer_age`, whatever the rows contain. -/
theorem c6_schema_error_lists_all : ∀ (cols : List String) (rows : List Row),
    (missing_columns cols ≠ [] →
        load_data cols rows = Except.error (LoadError.SchemaError (missing_columns cols))) ∧
    (∀ col, col ∈ required_columns → col ∉ cols → col ∈ missing_columns cols) ∧
    load_data (required_columns.filter (fun c => c ≠ "customer_age")) rows
      = Except.error (LoadError.SchemaError ["customer_age"]) := by
  intro cols rows
  refine ⟨?_, ?_, ?_⟩
  · intro h
    unfold load_data
    rw [if_pos h]
  · intro col h1 h2
    simp [missing_columns, List.mem_filter, h1, h2]
  · have h : missing_columns (required_columns.filter (fun c => c ≠ "customer_age"))
        = ["customer_age"] := by decide
    unfold load_data
    rw [h]
    rw [if_pos (by simp)]

/-- Witness for C6 at concrete column lists. -/
theorem c6_witness :
    load_data ["country"] []
      = Except.error (LoadError.SchemaError (missing_columns ["country"])) ∧
    "customer_age" ∈ missing_columns (required_columns.filter (fun c => c ≠ "customer_age")) :=
  ⟨(c6_schema_error_lists_all ["country"] []).1 (by decide),
   (c6_schema_error_lists_all (required_columns.filter (fun c => c ≠ "customer_age")) []).2.1
     "customer_age" (by decide) (by decide)⟩

/-- C7 counterexample: customer_age 110 lies in the claim's stated range
[0, 120] yet receives no bucket at all (`pd.cut` with upper bin edge 100
yields null, and the groupby then drops the row); and boundary age 20 lands
in the bucket labeled `0-20` — the bucket whose UPPER edge it equals — not
in the lower-edge bucket `21-30` the claim prescribes. -/
theorem c7_counterexample : age_group 110 = none ∧ age_group 20 = some "0-20" := by decide

theorem age_group_eq_none_of_gt (a : Nat) (h : 100 < a) : age_group a = none := by
  unfold age_group
  rw [if_neg (by omega), if_neg (by omega), if_neg (by omega), if_neg (by omega),
    if_neg (by omega)]

theorem filterMap_filter_of_none {α β : Type} (f : α → Option β) (q : α → Bool)
    (h : ∀ a, q a = false → f a = none) (l : List α) :
    (l.filter q).filterMap f = l.filterMap f := by
  induction l with
  | nil => rfl
  | cons a t ih =>
      cases hq : q a with
      | true => simp [List.filter_cons, hq, List.filterMap_cons, ih]
      | false => simp [List.filter_cons, hq, List.filterMap_cons, h a hq, ih]

/-- C7 (amended): the age buckets are the right-closed intervals `[0,20]`,
`(20,30]`, `(30,40]`, `(40,50]`, `(50,100]` — every age up to 100 falls in
exactly one of the 5 buckets, and the boundary ages 20/30/40/50 fall in the
bucket whose UPPER edge they equal; ages above 100 (which pass load-time
validation up to 120) receive no bucket, and the product-sales-by-age
aggregate silently drops those rows (it is unchanged by removing them). -/
theorem c7_age_buckets :
    (∀ a : Nat, a ≤ 100 → (age_labels.filter (fun l => age_group a == some l)).length = 1) ∧
    (∀ a : Nat, 100 < a → age_group a = none) ∧
    (∀ p : List Row, sales_by_age_product p
        = sales_by_age_product (p.filter (fun r => r.customer_age ≤ 100))) ∧
    age_group 20 = some "0-20" ∧ age_group 30 = some "21-30" ∧
    age_group 40 = some "31-40" ∧ age_group 50 = some "41-50" := by
  refine ⟨by decide, age_group_eq_none_of_gt, ?_, by decide, by decide, by decide, by decide⟩
  intro p
  simp only [sales_by_age_product]
  rw [filterMap_filter_of_none]
  intro r hr
  have : 100 < r.customer_age := by
    by_contra hc
    simp [Nat.not_lt] at hc
    simp [hc] at hr
  rw [age_group_eq_none_of_gt _ this]
  rfl

/-- Witness for C7's amended theorem at ages 50 and 101. -/
theorem c7_witness :
    (age_labels.filter (fun l => age_group 50 == some l)).length = 1 ∧
      age_group 101 = none :=
  ⟨c7_age_buckets.1 50 (by decide), c7_age_buckets.2.1 101 (by decide)⟩

/-- Three rows in two sessions: session SA has two rows of response time 0,
session SB one row of response time 6 — mean-of-means is 3, the flat
weighted mean is 2. -/
def c8_rows : List Row :=
  [mkRow "A" 0 "Purchase" 200 "SA" 0 30 none,
   mkRow "A" 0 "Purchase" 200 "SA" 0 30 none,
   mkRow "A" 0 "Purchase" 200 "SB" 6 30 none]

/-- C8: for every nonempty working subset the Marketer average-session-length
KPI equals the unweighted mean over distinct sessions of each session's mean
response time (the two-level mean-of-means), for an empty subset it is 0,
and on `c8_rows` it differs from the single weighted mean over all rows
(3 versus 2), so the two-level averaging is not a flat mean. -/
theorem c8_mean_of_means : ∀ rows : List Row,
    (rows = [] → avg_session_length rows = 0) ∧
    (rows ≠ [] → avg_session_length rows = meanOfSessionMeans rows) ∧
    avg_session_length c8_rows = 3 ∧ flat_mean c8_rows = 2 := by
  intro rows
  refine ⟨?_, ?_, ?_, ?_⟩
  · rintro rfl; rfl
  · intro h
    unfold avg_session_length meanOfSessionMeans session_ids
    rw [if_neg (by simpa using h)]
    exact mean_perm ((sortBy_perm _ _).map _)
  · norm_num +decide [avg_session_length, session_ids, session_mean, mean, c8_rows, mkRow,
      sortBy, insertBy, strLe, List.dedup_cons_of_not_mem, List.dedup_cons_of_mem]
  · norm_num [flat_mean, mean, c8_rows, mkRow]

/-- Witness for C8 at the empty list and at `c8_rows`. -/
theorem c8_witness :
    avg_session_length [] = 0 ∧ avg_session_length c8_rows = meanOfSessionMeans c8_rows :=
  ⟨(c8_mean_of_means []).1 rfl, (c8_mean_of_means c8_rows).2.1 (by simp [c8_rows])⟩

/-- The embed step used in the C9 counterexample: embedding `chart1.png`
succeeds, embedding any other chart raises. -/
def chart_ok_first (c : String) : Bool := c == "chart1.png"

/-- C9 counterexample: with two chart files where embedding the second one
fails, the cleanup loop deletes only the first file — `chart2.png` is left
behind, so cleanup is not guaranteed on a failed export. -/
theorem c9_counterexample :
    (embed_charts chart_ok_first ["chart1.png", "chart2.png"]).1 = ["chart1.png"] ∧
    "chart2.png" ∉ (embed_charts chart_ok_first ["chart1.png", "chart2.png"]).1 := by decide

/-- C9 (amended): each temporary chart file is deleted only after its own
section is successfully embedded; the files deleted by an export are exactly
the charts before the first failing section (all of them when every section
succeeds), and the files of the failing and later sections remain on disk. -/
theorem c9_cleanup_on_success_only : ∀ (ok : String → Bool) (charts : List String),
    embed_charts ok charts = (charts.takeWhile ok, charts.all ok) := by
  intro ok charts
  induction charts with
  | nil => rfl
  | cons c t ih =>
      cases h : ok c with
      | true => simp [embed_charts, h, List.takeWhile_cons, List.all_cons, ih]
      | false => simp [embed_charts, h, List.takeWhile_cons, List.all_cons]

/-- C10: in Marketer mode a nonempty working subset whose timestamps are all
null makes the most-active-hour KPI raise `IndexError` and abort the render
(the guard only checks that the derived hour column is nonempty, but the
mode of an all-null column is empty, so `.iloc[0]` fails), while a truly
empty working subset yields the `"N/A"` placeholder. -/
theorem c10_most_active_hour_guard : ∀ rows : List Row,
    (rows = [] → most_active_hour rows = Except.ok none) ∧
    (rows ≠ [] → (∀ r ∈ rows, r.ts_hour = none) →
        most_active_hour rows
          = Except.error "IndexError: single positional indexer is out-of-bounds") := by
  intro rows
  constructor
  · rintro rfl; rfl
  · intro h hall
    have hcol : (rows.map (fun r => r.ts_hour)).filterMap id = [] := by
      rw [List.filterMap_eq_nil_iff]
      intro a ha
      rcases List.mem_map.mp ha with ⟨r, hr, rfl⟩
      exact hall r hr
    have hne : (rows.map (fun r => r.ts_hour)).isEmpty = false := by
      cases rows with
      | nil => exact absurd rfl h
      | cons a t => rfl
    simp only [most_active_hour, hne, hcol]
    rfl

/-- A working-subset row whose timestamp failed to parse. -/
def c10_row : Row := mkRow "A" 5 "Purchase" 200 "S" 1 30 none

/-- Witness for C10 at the empty list and at a one-row all-null-timestamp
subset. -/
theorem c10_witness :
    most_active_hour [] = Except.ok none ∧
    most_active_hour [c10_row]
      = Except.error "IndexError: single positional indexer is out-of-bounds" :=
  ⟨(c10_most_active_hour_guard []).1 rfl,
   (c10_most_active_hour_guard [c10_row]).2 (by simp)
     (by intro r hr; rw [List.mem_singleton] at hr; subst hr; rfl)⟩
